import Mathlib

/-!
Verification of the wxTextEntryBase interface (include/wx/textentry.h).

The header defines an abstract text-entry capability with a small generic
event-suppression mechanism: a counter `m_eventsBlock` (a C `unsigned`),
inline `SuppressTextChangedEvents` / `ResumeTextChangedEvents` /
`EventsAllowed` / `SendTextUpdatedEventIfAllowed` members, and inline
`SetValue` / `ChangeValue` / `Clear` / `IsEmpty` / `AutoComplete` wrappers.

We embed the entry state shallowly.  The text buffer itself is owned by the
native backend in the real system; we carry it in the state so that the
content effect of the operations can be stated.  Each operation returns the
new state together with a trace of observable effects: dispatched text
change events and calls to the `EnableTextChangedEvents` backend hook.

The bodies of `DoSetValue`, `Replace`, `SendTextUpdatedEvent` and the
backend primitives (`Remove`, `WriteText`, `GetLastPosition`) live outside
this header (in the platform sources, not present here); those definitions
are modelled from the spec and say so in their doc comments.  Everything
else is translated directly from the header.
-/

/-- A C `unsigned` is modelled as a natural number reduced modulo `2 ^ 32`
(the width of `unsigned` on the ILP32/LP64 platforms targeted here). -/
def UINT_MOD : Nat := 2 ^ 32

/-- Observable effects of an operation on the entry: a dispatched
wxEVT_COMMAND_TEXT_UPDATED change event, or a call to the
`EnableTextChangedEvents` backend hook with its boolean argument. -/
inductive Effect where
  | textUpdated : Effect
  | enableTextChangedEvents : Bool → Effect
deriving DecidableEq, Repr

/-- State of a wxTextEntryBase instance: the backend-owned text buffer, the
`m_eventsBlock` suppression counter (an `unsigned`), and the lazily
allocated `m_hintData`. -/
structure TextEntry where
  buffer : List Char
  eventsBlock : Nat
  hintData : Option (List Char)
deriving DecidableEq, Repr

/-- Number of text change events in an effect trace. -/
def notifCount : List Effect → Nat
  | [] => 0
  | Effect.textUpdated :: tr => notifCount tr + 1
  | Effect.enableTextChangedEvents _ :: tr => notifCount tr

/-- The constructor `wxTextEntryBase() { m_eventsBlock = 0; m_hintData = NULL; }`.
The buffer is backend-owned, so its initial content is a parameter. -/
def mkWxTextEntryBase (buf : List Char) : TextEntry :=
  { buffer := buf, eventsBlock := 0, hintData := none }

/-- `bool EventsAllowed() const { return m_eventsBlock == 0; }` -/
def EventsAllowed (e : TextEntry) : Bool := e.eventsBlock == 0

/-- `void SuppressTextChangedEvents() { if ( !m_eventsBlock++ ) EnableTextChangedEvents(false); }`
The post-increment wraps modulo `2 ^ 32` on the `unsigned` counter. -/
def SuppressTextChangedEvents (e : TextEntry) : TextEntry × List Effect :=
  ({ e with eventsBlock := (e.eventsBlock + 1) % UINT_MOD },
   if e.eventsBlock = 0 then [Effect.enableTextChangedEvents false] else [])

/-- `void ResumeTextChangedEvents() { if ( !--m_eventsBlock ) EnableTextChangedEvents(true); }`
The pre-decrement wraps modulo `2 ^ 32` on the `unsigned` counter. -/
def ResumeTextChangedEvents (e : TextEntry) : TextEntry × List Effect :=
  ({ e with eventsBlock := (e.eventsBlock + (UINT_MOD - 1)) % UINT_MOD },
   if (e.eventsBlock + (UINT_MOD - 1)) % UINT_MOD = 0 then
     [Effect.enableTextChangedEvents true]
   else [])

/-- The `EventsSuppressor` guard constructor: when `suppress` holds it calls
`SuppressTextChangedEvents`, otherwise it does nothing. -/
def eventsSuppressorAcquire (e : TextEntry) (suppress : Bool) :
    TextEntry × List Effect :=
  if suppress then SuppressTextChangedEvents e else (e, [])

/-- The `EventsSuppressor` guard destructor: when `suppress` holds it calls
`ResumeTextChangedEvents`, otherwise it does nothing. -/
def eventsSuppressorRelease (e : TextEntry) (suppress : Bool) :
    TextEntry × List Effect :=
  if suppress then ResumeTextChangedEvents e else (e, [])

/-- Modelled from the spec: the body of the static
`wxTextEntryBase::SendTextUpdatedEvent(wxWindow*)` is in the platform
sources, not in this header.  Per the spec it synchronously dispatches one
change event for the owning window; we record the dispatch in the trace. -/
def SendTextUpdatedEvent (e : TextEntry) : TextEntry × List Effect :=
  (e, [Effect.textUpdated])

/-- `void SendTextUpdatedEventIfAllowed() { if ( EventsAllowed() ) SendTextUpdatedEvent(); }` -/
def SendTextUpdatedEventIfAllowed (e : TextEntry) : TextEntry × List Effect :=
  if EventsAllowed e then SendTextUpdatedEvent e else (e, [])

/-- Flag `SetValue_NoEvent = 0` from the `DoSetValue` flags enum. -/
def SetValue_NoEvent : Nat := 0

/-- Flag `SetValue_SendEvent = 1` from the `DoSetValue` flags enum. -/
def SetValue_SendEvent : Nat := 1

/-- Flag `SetValue_SelectionOnly = 2` from the `DoSetValue` flags enum. -/
def SetValue_SelectionOnly : Nat := 2

/-- Modelled from the spec: the body of `wxTextEntryBase::DoSetValue` is in
the platform sources, not in this header.  Per the spec it replaces the
entire content and, exactly when the `SetValue_SendEvent` flag is passed,
emits one change event unless suppressed. -/
def DoSetValue (e : TextEntry) (value : List Char) (flags : Nat) :
    TextEntry × List Effect :=
  let e2 : TextEntry := { e with buffer := value }
  if flags &&& SetValue_SendEvent ≠ 0 then SendTextUpdatedEventIfAllowed e2
  else (e2, [])

/-- `void SetValue(const wxString& value) { DoSetValue(value, SetValue_SendEvent); }` -/
def SetValue (e : TextEntry) (value : List Char) : TextEntry × List Effect :=
  DoSetValue e value SetValue_SendEvent

/-- `void ChangeValue(const wxString& value) { DoSetValue(value, SetValue_NoEvent); }` -/
def ChangeValue (e : TextEntry) (value : List Char) : TextEntry × List Effect :=
  DoSetValue e value SetValue_NoEvent

/-- `void Clear() { SetValue(wxString()); }` — a default-constructed
wxString is empty. -/
def Clear (e : TextEntry) : TextEntry × List Effect :=
  SetValue e []

/-- Modelled from the spec: `Remove(from, to)` is a backend pure virtual
that deletes the range [from,to).  Per the spec composite operations must
suppress their constituent low-level edits precisely because each primitive
edit would fire its own change event; so the modelled backend fires one
event when events are allowed. -/
def Remove (e : TextEntry) (f t : Nat) : TextEntry × List Effect :=
  ({ e with buffer := e.buffer.take f ++ e.buffer.drop t },
   if EventsAllowed e then [Effect.textUpdated] else [])

/-- Modelled from the spec: `WriteText(text)` is a backend pure virtual
that inserts at the insertion point.  The insertion position is passed
explicitly here (the claims do not depend on insertion-point state).  Like
`Remove`, the modelled primitive fires one change event when allowed. -/
def WriteTextAt (e : TextEntry) (pos : Nat) (text : List Char) :
    TextEntry × List Effect :=
  ({ e with buffer := e.buffer.take pos ++ text ++ e.buffer.drop pos },
   if EventsAllowed e then [Effect.textUpdated] else [])

/-- Modelled from the spec: the body of `wxTextEntryBase::Replace` is in
the platform sources, not in this header.  Per the spec it removes
[from,to) and inserts `value` at `from`, suppressing the constituent
low-level operations with an `EventsSuppressor` and firing a single change
event at the end. -/
def Replace (e : TextEntry) (f t : Nat) (value : List Char) :
    TextEntry × List Effect :=
  let s1 := eventsSuppressorAcquire e true
  let s2 := Remove s1.1 f t
  let s3 := WriteTextAt s2.1 f value
  let s4 := eventsSuppressorRelease s3.1 true
  let s5 := SendTextUpdatedEventIfAllowed s4.1
  (s5.1, s1.2 ++ s2.2 ++ s3.2 ++ s4.2 ++ s5.2)

/-- Modelled from the spec: `GetLastPosition()` is a backend pure virtual;
the value of the entry is the range [0, last-position), so the modelled
backend returns the buffer length (as the C `long` it returns). -/
def GetLastPosition (e : TextEntry) : Int := e.buffer.length

/-- `bool IsEmpty() const { return GetLastPosition() <= 0; }` (namespaced
because Lean already has a class of this name). -/
def TextEntry.IsEmpty (e : TextEntry) : Bool := GetLastPosition e ≤ 0

/-- `virtual bool AutoComplete(const wxArrayString& choices) { return false; }` —
the default implementation ignores its argument and touches no state. -/
def AutoComplete (e : TextEntry) (choices : List (List Char)) :
    Bool × TextEntry :=
  (false, e)

/-- `virtual bool AutoCompleteFileNames() { return false; }` -/
def AutoCompleteFileNames (e : TextEntry) : Bool × TextEntry :=
  (false, e)

/-- The state part of one `ResumeTextChangedEvents` call. -/
def resumeStep (e : TextEntry) : TextEntry := (ResumeTextChangedEvents e).1

/-- Iterated `ResumeTextChangedEvents` (state part only). -/
def resumeN (k : Nat) (e : TextEntry) : TextEntry := resumeStep^[k] e

/-! ## Helper lemmas -/

theorem UINT_MOD_eq : UINT_MOD = 4294967296 := by norm_num [UINT_MOD]

theorem eventsAllowed_iff (e : TextEntry) :
    EventsAllowed e = true ↔ e.eventsBlock = 0 := by
  simp [EventsAllowed]

theorem eventsAllowed_false_iff (e : TextEntry) :
    EventsAllowed e = false ↔ e.eventsBlock ≠ 0 := by
  simp [EventsAllowed]

theorem suppress_eq (e : TextEntry) :
    SuppressTextChangedEvents e =
      ({ e with eventsBlock := (e.eventsBlock + 1) % UINT_MOD },
       if e.eventsBlock = 0 then [Effect.enableTextChangedEvents false]
       else []) := rfl

theorem resume_eq (e : TextEntry) :
    ResumeTextChangedEvents e =
      ({ e with eventsBlock := (e.eventsBlock + (UINT_MOD - 1)) % UINT_MOD },
       if (e.eventsBlock + (UINT_MOD - 1)) % UINT_MOD = 0 then
         [Effect.enableTextChangedEvents true]
       else []) := rfl

theorem acquire_true (e : TextEntry) :
    eventsSuppressorAcquire e true = SuppressTextChangedEvents e := rfl

theorem release_true (e : TextEntry) :
    eventsSuppressorRelease e true = ResumeTextChangedEvents e := rfl

theorem resume_state_dec (e : TextEntry) (h0 : 0 < e.eventsBlock)
    (h : e.eventsBlock < UINT_MOD) :
    (ResumeTextChangedEvents e).1.eventsBlock = e.eventsBlock - 1 := by
  rw [resume_eq]
  show (e.eventsBlock + (UINT_MOD - 1)) % UINT_MOD = e.eventsBlock - 1
  rw [UINT_MOD_eq] at h ⊢
  omega

theorem resumeN_zero (e : TextEntry) : resumeN 0 e = e := rfl

theorem resumeStep_eq (e : TextEntry) :
    resumeStep e = (ResumeTextChangedEvents e).1 := rfl

theorem resumeN_succ (k : Nat) (e : TextEntry) :
    resumeN (k + 1) e = resumeN k (resumeStep e) :=
  Function.iterate_succ_apply resumeStep k e

theorem resumeN_eventsBlock (k : Nat) :
    ∀ e : TextEntry, e.eventsBlock < UINT_MOD → k ≤ e.eventsBlock →
      (resumeN k e).eventsBlock = e.eventsBlock - k := by
  induction k with
  | zero => intro e _ _; rw [resumeN_zero]; omega
  | succ n ih =>
      intro e hlt hle
      have h0 : 0 < e.eventsBlock := by omega
      have hdec := resume_state_dec e h0 hlt
      have hlt2 : (ResumeTextChangedEvents e).1.eventsBlock < UINT_MOD := by
        omega
      have hle2 : n ≤ (ResumeTextChangedEvents e).1.eventsBlock := by
        omega
      rw [resumeN_succ, resumeStep_eq, ih _ hlt2 hle2, hdec]
      omega

theorem notifCount_append (a b : List Effect) :
    notifCount (a ++ b) = notifCount a + notifCount b := by
  induction a with
  | nil => simp [notifCount]
  | cons x tr ih => cases x <;> simp [notifCount, ih] <;> omega

/-! ## Claim theorems -/

/-- C8: the default implementations of AutoComplete and
AutoCompleteFileNames return false for every input and mutate no state. -/
theorem autoComplete_defaults_unsupported (e : TextEntry)
    (choices : List (List Char)) :
    AutoComplete e choices = (false, e) ∧
    AutoCompleteFileNames e = (false, e) :=
  ⟨rfl, rfl⟩

/-- C9: a freshly constructed entry has suppression counter zero and no
hint data allocated, so EventsAllowed() is true from the start. -/
theorem freshEntry_eventsAllowed (buf : List Char) :
    (mkWxTextEntryBase buf).eventsBlock = 0 ∧
    (mkWxTextEntryBase buf).hintData = none ∧
    EventsAllowed (mkWxTextEntryBase buf) = true :=
  ⟨rfl, rfl, rfl⟩

/-- C7: IsEmpty() returns true exactly when GetLastPosition() is at most 0,
which for the modelled backend means the buffer is empty. -/
theorem isEmpty_iff_lastPosition_le_zero (e : TextEntry) :
    (e.IsEmpty = true ↔ GetLastPosition e ≤ 0) ∧
    (e.IsEmpty = true ↔ e.buffer = []) := by
  constructor
  · simp [TextEntry.IsEmpty]
  · simp [TextEntry.IsEmpty, GetLastPosition]

/-- C5: SendTextUpdatedEventIfAllowed leaves the state unchanged and
dispatches one change event exactly when the suppression counter is zero,
doing nothing at all otherwise. -/
theorem sendIfAllowed_iff_counter_zero (e : TextEntry) :
    (SendTextUpdatedEventIfAllowed e).1 = e ∧
    (SendTextUpdatedEventIfAllowed e).2 =
      (if e.eventsBlock = 0 then [Effect.textUpdated] else []) := by
  simp only [SendTextUpdatedEventIfAllowed, SendTextUpdatedEvent,
    EventsAllowed]
  constructor
  · split <;> rfl
  · rcases Nat.eq_zero_or_pos e.eventsBlock with h | h
    · simp [h]
    · have h2 : e.eventsBlock ≠ 0 := by omega
      simp [h2]

/-- C3: from a state where events are allowed, acquiring the suppression
guard twice and releasing once leaves the counter at 1 (still suppressed);
releasing a second time brings it to 0 and EventsAllowed becomes true. -/
theorem nested_suppression_counted (e e1 e2 e3 e4 : TextEntry)
    (h : EventsAllowed e = true)
    (h1 : e1 = (eventsSuppressorAcquire e true).1)
    (h2 : e2 = (eventsSuppressorAcquire e1 true).1)
    (h3 : e3 = (eventsSuppressorRelease e2 true).1)
    (h4 : e4 = (eventsSuppressorRelease e3 true).1) :
    e2.eventsBlock = 2 ∧ e3.eventsBlock = 1 ∧ EventsAllowed e3 = false ∧
    e4.eventsBlock = 0 ∧ EventsAllowed e4 = true := by
  have heb : e.eventsBlock = 0 := (eventsAllowed_iff e).mp h
  have a1 : eventsSuppressorAcquire e true =
      (⟨e.buffer, 1, e.hintData⟩, [Effect.enableTextChangedEvents false]) := by
    rw [acquire_true, suppress_eq, heb]
    norm_num [UINT_MOD_eq]
  rw [a1] at h1
  have a2 : eventsSuppressorAcquire e1 true =
      ((⟨e.buffer, 2, e.hintData⟩ : TextEntry), ([] : List Effect)) := by
    rw [acquire_true, suppress_eq, h1]
    norm_num [UINT_MOD_eq]
  rw [a2] at h2
  have a3 : eventsSuppressorRelease e2 true =
      ((⟨e.buffer, 1, e.hintData⟩ : TextEntry), ([] : List Effect)) := by
    rw [release_true, resume_eq, h2]
    norm_num [UINT_MOD_eq]
  rw [a3] at h3
  have a4 : eventsSuppressorRelease e3 true =
      ((⟨e.buffer, 0, e.hintData⟩ : TextEntry),
        [Effect.enableTextChangedEvents true]) := by
    rw [release_true, resume_eq, h3]
    norm_num [UINT_MOD_eq]
  rw [a4] at h4
  subst h1 h2 h3 h4
  refine ⟨rfl, rfl, ?_, rfl, rfl⟩
  simp [EventsAllowed]

/-- C4: the EnableTextChangedEvents backend hook is invoked only at the
boundary transitions of the suppression counter: with false exactly when
the counter was 0 before SuppressTextChangedEvents increments it, and with
true exactly when ResumeTextChangedEvents decrements it from 1 to 0. -/
theorem enable_hook_boundary_only (e : TextEntry)
    (h : e.eventsBlock < UINT_MOD) :
    ((SuppressTextChangedEvents e).2 =
      if e.eventsBlock = 0 then [Effect.enableTextChangedEvents false]
      else []) ∧
    ((ResumeTextChangedEvents e).2 =
      if e.eventsBlock = 1 then [Effect.enableTextChangedEvents true]
      else []) := by
  constructor
  · rw [suppress_eq]
  · rw [resume_eq]
    have hiff : ((e.eventsBlock + (UINT_MOD - 1)) % UINT_MOD = 0) ↔
        e.eventsBlock = 1 := by
      rw [UINT_MOD_eq] at h ⊢
      omega
    simp [hiff]

/-- C10: calling ResumeTextChangedEvents with the unsigned counter already
at zero wraps it to UINT_MOD - 1, which is nonzero, so the backend hook is
not invoked, events stay suppressed, and only UINT_MOD - 1 further releases
bring the counter back to zero where events are allowed again. -/
theorem unbalanced_resume_wraps (e : TextEntry) (h : e.eventsBlock = 0) :
    (ResumeTextChangedEvents e).1.eventsBlock = UINT_MOD - 1 ∧
    (ResumeTextChangedEvents e).2 = [] ∧
    EventsAllowed (ResumeTextChangedEvents e).1 = false ∧
    (∀ k, k < UINT_MOD - 1 →
      EventsAllowed (resumeN k (ResumeTextChangedEvents e).1) = false) ∧
    EventsAllowed (resumeN (UINT_MOD - 1) (ResumeTextChangedEvents e).1)
      = true := by
  have h1 : ResumeTextChangedEvents e =
      ((⟨e.buffer, UINT_MOD - 1, e.hintData⟩ : TextEntry),
        ([] : List Effect)) := by
    rw [resume_eq, h]
    norm_num [UINT_MOD_eq]
  have hblock : (ResumeTextChangedEvents e).1.eventsBlock = UINT_MOD - 1 := by
    rw [h1]
  have hlt : (ResumeTextChangedEvents e).1.eventsBlock < UINT_MOD := by
    rw [hblock, UINT_MOD_eq]
    omega
  refine ⟨hblock, ?_, ?_, ?_, ?_⟩
  · rw [h1]
  · rw [eventsAllowed_false_iff, hblock, UINT_MOD_eq]
    omega
  · intro k hk
    have hle : k ≤ (ResumeTextChangedEvents e).1.eventsBlock := by
      rw [hblock]
      omega
    have hres := resumeN_eventsBlock k (ResumeTextChangedEvents e).1 hlt hle
    rw [eventsAllowed_false_iff, hres, hblock]
    rw [UINT_MOD_eq] at hk ⊢
    omega
  · have hle : UINT_MOD - 1 ≤ (ResumeTextChangedEvents e).1.eventsBlock := by
      rw [hblock]
    have hres := resumeN_eventsBlock (UINT_MOD - 1)
      (ResumeTextChangedEvents e).1 hlt hle
    rw [eventsAllowed_iff, hres, hblock]
    omega

/-- C1: SetValue and ChangeValue are both DoSetValue, with the
SetValue_SendEvent and SetValue_NoEvent flag respectively; both replace the
whole buffer with the given text, SetValue emits exactly one change event
when events are not suppressed, and ChangeValue emits none. -/
theorem setValue_changeValue_contract (e : TextEntry) (v : List Char)
    (h : EventsAllowed e = true) :
    SetValue e v = DoSetValue e v SetValue_SendEvent ∧
    ChangeValue e v = DoSetValue e v SetValue_NoEvent ∧
    (SetValue e v).1.buffer = v ∧ notifCount (SetValue e v).2 = 1 ∧
    (ChangeValue e v).1.buffer = v ∧ notifCount (ChangeValue e v).2 = 0 := by
  have heb : e.eventsBlock = 0 := (eventsAllowed_iff e).mp h
  refine ⟨rfl, rfl, ?_, ?_, ?_, ?_⟩ <;>
    simp [SetValue, ChangeValue, DoSetValue, SetValue_SendEvent,
      SetValue_NoEvent, SendTextUpdatedEventIfAllowed, SendTextUpdatedEvent,
      EventsAllowed, heb, notifCount]

/-- C6: Clear() is SetValue with the empty string: it empties the buffer
and emits exactly one change event when events are not suppressed. -/
theorem clear_equiv_setValue_empty (e : TextEntry)
    (h : EventsAllowed e = true) :
    Clear e = SetValue e [] ∧ (Clear e).1.buffer = [] ∧
    notifCount (Clear e).2 = 1 := by
  have heb : e.eventsBlock = 0 := (eventsAllowed_iff e).mp h
  refine ⟨rfl, ?_, ?_⟩ <;>
    simp [Clear, SetValue, DoSetValue, SetValue_SendEvent,
      SendTextUpdatedEventIfAllowed, SendTextUpdatedEvent, EventsAllowed,
      heb, notifCount]

/-- C2: Replace(from, to, v) on a buffer B with a valid range [from,to)
leaves the buffer equal to B[0:from] ++ v ++ B[to:] and, when events are
not suppressed, emits exactly one change event even though it is composed
of several primitive operations internally. -/
theorem replace_single_notification (e : TextEntry) (f t : Nat)
    (v : List Char) (hft : f ≤ t) (ht : t ≤ e.buffer.length)
    (h : EventsAllowed e = true) :
    (Replace e f t v).1.buffer = e.buffer.take f ++ v ++ e.buffer.drop t ∧
    notifCount (Replace e f t v).2 = 1 := by
  have heb : e.eventsBlock = 0 := (eventsAllowed_iff e).mp h
  have hlen : (e.buffer.take f).length = f := by
    rw [List.length_take]
    omega
  have hb1 : (e.buffer.take f ++ e.buffer.drop t).take f = e.buffer.take f :=
    List.take_left' hlen
  have hb2 : (e.buffer.take f ++ e.buffer.drop t).drop f = e.buffer.drop t :=
    List.drop_left' hlen
  have s1 : eventsSuppressorAcquire e true =
      (⟨e.buffer, 1, e.hintData⟩, [Effect.enableTextChangedEvents false]) := by
    rw [acquire_true, suppress_eq, heb]
    norm_num [UINT_MOD_eq]
  have s2 : Remove (⟨e.buffer, 1, e.hintData⟩ : TextEntry) f t =
      ((⟨e.buffer.take f ++ e.buffer.drop t, 1, e.hintData⟩ : TextEntry),
        ([] : List Effect)) := by
    simp [Remove, EventsAllowed]
  have s3 : WriteTextAt
      (⟨e.buffer.take f ++ e.buffer.drop t, 1, e.hintData⟩ : TextEntry) f v =
      ((⟨e.buffer.take f ++ (v ++ e.buffer.drop t), 1, e.hintData⟩
          : TextEntry),
        ([] : List Effect)) := by
    simp [WriteTextAt, EventsAllowed, hb1, hb2]
  have s4 : eventsSuppressorRelease
      (⟨e.buffer.take f ++ (v ++ e.buffer.drop t), 1, e.hintData⟩
        : TextEntry)
      true =
      ((⟨e.buffer.take f ++ (v ++ e.buffer.drop t), 0, e.hintData⟩
          : TextEntry),
        [Effect.enableTextChangedEvents true]) := by
    rw [release_true, resume_eq]
    norm_num [UINT_MOD_eq]
  have s5 : SendTextUpdatedEventIfAllowed
      (⟨e.buffer.take f ++ (v ++ e.buffer.drop t), 0, e.hintData⟩
        : TextEntry) =
      ((⟨e.buffer.take f ++ (v ++ e.buffer.drop t), 0, e.hintData⟩
          : TextEntry),
        [Effect.textUpdated]) := by
    simp [SendTextUpdatedEventIfAllowed, SendTextUpdatedEvent, EventsAllowed]
  constructor
  · simp [Replace, s1, s2, s3, s4, s5]
  · simp [Replace, s1, s2, s3, s4, s5, notifCount]

/-! ## Witnesses -/

theorem setValue_changeValue_contract_witness :
    SetValue ⟨[], 0, none⟩ [Char.ofNat 97] =
      DoSetValue ⟨[], 0, none⟩ [Char.ofNat 97] SetValue_SendEvent ∧
    ChangeValue ⟨[], 0, none⟩ [Char.ofNat 97] =
      DoSetValue ⟨[], 0, none⟩ [Char.ofNat 97] SetValue_NoEvent ∧
    (SetValue ⟨[], 0, none⟩ [Char.ofNat 97]).1.buffer = [Char.ofNat 97] ∧
    notifCount (SetValue ⟨[], 0, none⟩ [Char.ofNat 97]).2 = 1 ∧
    (ChangeValue ⟨[], 0, none⟩ [Char.ofNat 97]).1.buffer = [Char.ofNat 97] ∧
    notifCount (ChangeValue ⟨[], 0, none⟩ [Char.ofNat 97]).2 = 0 :=
  setValue_changeValue_contract ⟨[], 0, none⟩ [Char.ofNat 97] (by decide)

theorem replace_single_notification_witness :
    (Replace ⟨[Char.ofNat 72, Char.ofNat 101, Char.ofNat 108, Char.ofNat 108,
        Char.ofNat 111], 0, none⟩ 1 3 [Char.ofNat 69, Char.ofNat 89]).1.buffer
      = (⟨[Char.ofNat 72, Char.ofNat 101, Char.ofNat 108, Char.ofNat 108,
          Char.ofNat 111], 0, none⟩ : TextEntry).buffer.take 1 ++
        [Char.ofNat 69, Char.ofNat 89] ++
        (⟨[Char.ofNat 72, Char.ofNat 101, Char.ofNat 108, Char.ofNat 108,
          Char.ofNat 111], 0, none⟩ : TextEntry).buffer.drop 3 ∧
    notifCount (Replace ⟨[Char.ofNat 72, Char.ofNat 101, Char.ofNat 108,
        Char.ofNat 108, Char.ofNat 111], 0, none⟩ 1 3
        [Char.ofNat 69, Char.ofNat 89]).2 = 1 :=
  replace_single_notification
    ⟨[Char.ofNat 72, Char.ofNat 101, Char.ofNat 108, Char.ofNat 108,
      Char.ofNat 111], 0, none⟩ 1 3 [Char.ofNat 69, Char.ofNat 89]
    (by decide) (by decide) (by decide)

theorem nested_suppression_counted_witness :
    (⟨[], 2, none⟩ : TextEntry).eventsBlock = 2 ∧
    (⟨[], 1, none⟩ : TextEntry).eventsBlock = 1 ∧
    EventsAllowed ⟨[], 1, none⟩ = false ∧
    (⟨[], 0, none⟩ : TextEntry).eventsBlock = 0 ∧
    EventsAllowed ⟨[], 0, none⟩ = true :=
  nested_suppression_counted ⟨[], 0, none⟩ ⟨[], 1, none⟩ ⟨[], 2, none⟩
    ⟨[], 1, none⟩ ⟨[], 0, none⟩ (by decide) (by decide) (by decide)
    (by decide) (by decide)

theorem enable_hook_boundary_only_witness :
    ((SuppressTextChangedEvents ⟨[], 1, none⟩).2 =
      if (⟨[], 1, none⟩ : TextEntry).eventsBlock = 0 then
        [Effect.enableTextChangedEvents false]
      else []) ∧
    ((ResumeTextChangedEvents ⟨[], 1, none⟩).2 =
      if (⟨[], 1, none⟩ : TextEntry).eventsBlock = 1 then
        [Effect.enableTextChangedEvents true]
      else []) :=
  enable_hook_boundary_only ⟨[], 1, none⟩ (by decide)

theorem clear_equiv_setValue_empty_witness :
    Clear ⟨[Char.ofNat 72, Char.ofNat 105], 0, none⟩ =
      SetValue ⟨[Char.ofNat 72, Char.ofNat 105], 0, none⟩ [] ∧
    (Clear ⟨[Char.ofNat 72, Char.ofNat 105], 0, none⟩).1.buffer = [] ∧
    notifCount (Clear ⟨[Char.ofNat 72, Char.ofNat 105], 0, none⟩).2 = 1 :=
  clear_equiv_setValue_empty ⟨[Char.ofNat 72, Char.ofNat 105], 0, none⟩
    (by decide)

theorem unbalanced_resume_wraps_witness :
    (ResumeTextChangedEvents ⟨[], 0, none⟩).1.eventsBlock = UINT_MOD - 1 ∧
    (ResumeTextChangedEvents ⟨[], 0, none⟩).2 = [] ∧
    EventsAllowed (ResumeTextChangedEvents ⟨[], 0, none⟩).1 = false ∧
    (∀ k, k < UINT_MOD - 1 →
      EventsAllowed (resumeN k (ResumeTextChangedEvents ⟨[], 0, none⟩).1)
        = false) ∧
    EventsAllowed
      (resumeN (UINT_MOD - 1)
        (ResumeTextChangedEvents ⟨[], 0, none⟩).1) = true :=
  unbalanced_resume_wraps ⟨[], 0, none⟩ (by decide)
